import Mathlib

/-!
Verification of the ansible-bell repository against its specification.

The tone synthesizer is embedded from `src/create_sample_bell.py`
(`generate_beep`), the notification dispatcher from
`src/ansible_collections/cahlchang/bell/plugins/modules/play_sound.py`
(`play_sound_macos`, `play_sound_linux`, `play_sound_windows`, `main`) and
from `src/ansible_collections/cahlchang/bell/plugins/callback/bell.py`
(`CallbackModule._play_sound`, `CallbackModule.v2_playbook_on_stats`).

Python floats are modelled as real numbers, Python `math.sin` as `Real.sin`,
and the Python `int()` conversion (truncation toward zero) as `pyInt`.
Fallible code returns `Except`.
-/

namespace AnsibleBell

/-- Python `int(x)` applied to a float: truncation toward zero. -/
noncomputable def pyInt (x : ℝ) : ℤ :=
  if 0 ≤ x then ⌊x⌋ else ⌈x⌉

/-- The parameters of `generate_beep` (the file name is omitted: it does not
influence the synthesized samples).  Mirrors the spec's ToneSpec record. -/
structure ToneSpec where
  duration : ℝ
  start_freq : ℝ
  end_freq : ℝ
  volume : ℝ
  framerate : ℤ

/-- The spec's validity condition on a ToneSpec: positive duration,
positive frequencies, volume in [0,1], positive sample rate. -/
def specValid (s : ToneSpec) : Prop :=
  0 < s.duration ∧ 0 < s.start_freq ∧ 0 < s.end_freq ∧
    0 ≤ s.volume ∧ s.volume ≤ 1 ∧ 0 < s.framerate

/-- Errors the Python code can actually raise while synthesizing:
`(end_freq - start_freq) / n_samples` raises `ZeroDivisionError` when
`n_samples = 0`, and `struct.pack` raises `struct.error` when a sample
value falls outside the signed 16-bit range. -/
inductive PyError where
  | zeroDivisionError
  | structError

/-- `n_samples = int(duration * framerate)` from `generate_beep`. -/
noncomputable def nSamples (s : ToneSpec) : ℤ :=
  pyInt (s.duration * (s.framerate : ℝ))

/-- `freq_increment = (end_freq - start_freq) / n_samples` from `generate_beep`. -/
noncomputable def freqInc (s : ToneSpec) : ℝ :=
  (s.end_freq - s.start_freq) / ((nSamples s : ℤ) : ℝ)

/-- One loop iteration of `generate_beep`:
`int(math.sin(2.0 * math.pi * current_freq * (i / framerate)) * 32767 * volume)`. -/
noncomputable def pySample (vol rate freq : ℝ) (i : ℕ) : ℤ :=
  pyInt (Real.sin (2 * Real.pi * freq * ((i : ℝ) / rate)) * 32767 * vol)

/-- The `for i in range(n_samples)` loop of `generate_beep`: `k` iterations
remain, `i` is the loop index, `freq` is `current_freq`, which is advanced
by `inc` after each sample. -/
noncomputable def beepLoop (vol rate inc : ℝ) : ℕ → ℕ → ℝ → List ℤ
  | 0, _, _ => []
  | k + 1, i, freq => pySample vol rate freq i :: beepLoop vol rate inc k (i + 1) (freq + inc)

/-- `generate_beep` from `src/create_sample_bell.py`, returning the list of
16-bit samples it packs into the WAV file.  When `n_samples = 0` the
division computing `freq_increment` raises `ZeroDivisionError`; when a
computed sample leaves the signed 16-bit range, `struct.pack` raises. -/
noncomputable def generate_beep (s : ToneSpec) : Except PyError (List ℤ) :=
  if nSamples s = 0 then Except.error PyError.zeroDivisionError
  else
    if ∀ x ∈ beepLoop s.volume (s.framerate : ℝ) (freqInc s) (nSamples s).toNat 0 s.start_freq,
        -32768 ≤ x ∧ x ≤ 32767 then
      Except.ok (beepLoop s.volume (s.framerate : ℝ) (freqInc s) (nSamples s).toNat 0 s.start_freq)
    else Except.error PyError.structError

/-- The sample at index `i` of the synthesized clip (`none` when synthesis
raised or the index is out of range). -/
noncomputable def clipSampleAt (s : ToneSpec) (i : ℕ) : Option ℤ :=
  match generate_beep s with
  | Except.ok l => l.get? i
  | Except.error _ => none

/-- The length of the synthesized clip (`none` when synthesis raised). -/
noncomputable def clipLength (s : ToneSpec) : Option ℕ :=
  (generate_beep s).toOption.map List.length

/-- Little-endian two's-complement encoding of one 16-bit sample,
following `struct.pack` with format `<h`. -/
def toLEBytes (x : ℤ) : List ℕ :=
  [(x % 65536).toNat % 256, (x % 65536).toNat / 256]

/-- Serialization of the PCM payload: samples in order, each as two
little-endian bytes. -/
def serializeClip (l : List ℤ) : List ℕ :=
  l.flatMap toLEBytes

/-- The frequency the loop of `generate_beep` uses for sample `i`
(start frequency advanced `i` times by the increment). -/
noncomputable def codeFreqAt (s : ToneSpec) (i : ℕ) : ℝ :=
  s.start_freq + (i : ℝ) * freqInc s

/-- Sample count as the specification words it: `round(duration × sample_rate_hz)`. -/
noncomputable def specSampleCount (s : ToneSpec) : ℤ :=
  round (s.duration * (s.framerate : ℝ))

/-- Instantaneous frequency as the specification words it, with the
per-sample increment `(end - start) / sample_count`. -/
noncomputable def specFreqAt (s : ToneSpec) (i : ℕ) : ℝ :=
  s.start_freq + (i : ℝ) * ((s.end_freq - s.start_freq) / ((specSampleCount s : ℤ) : ℝ))

/-- Sample value as the specification words it:
`round(sin(2π × instantaneous_frequency × i / sample_rate_hz) × 32767 × volume)`,
clamped to [-32768, 32767]. -/
noncomputable def specSample (s : ToneSpec) (i : ℕ) : ℤ :=
  max (-32768) (min 32767
    (round (Real.sin (2 * Real.pi * specFreqAt s i * ((i : ℝ) / (s.framerate : ℝ))) * 32767 * s.volume)))

/- ### Concrete tone specs used in counterexamples and witnesses -/

/-- Constant 1 Hz tone, one second, volume 1, sample rate 12: at sample
index 1 the sine takes the exact value 1/2. -/
noncomputable def spec1 : ToneSpec := ⟨1, 1, 1, 1, 12⟩

/-- The specification's worked example: duration 0.3 s, 500 → 800 Hz sweep,
volume 0.8, rate 44100. -/
noncomputable def spec06 : ToneSpec := ⟨0.3, 500, 800, 0.8, 44100⟩

/-- Negative duration: `int(-0.3 * 44100) = -13230`, so `range` is empty. -/
noncomputable def specC2 : ToneSpec := ⟨-0.3, 500, 800, 0.8, 44100⟩

/-- A valid but very short duration: `int(0.000001 * 44100) = 0`, so the
increment division raises `ZeroDivisionError`. -/
noncomputable def specC2v : ToneSpec := ⟨0.000001, 500, 800, 0.8, 44100⟩

/-- Duration 0.5 s at rate 3: `duration * framerate = 1.5`, where
truncation (1) and rounding (2) disagree. -/
noncomputable def specC6 : ToneSpec := ⟨0.5, 1, 1, 0, 3⟩

/-- Zero-volume witness spec. -/
noncomputable def specW9 : ToneSpec := ⟨1, 5, 8, 0, 10⟩

/- ### Notification dispatcher embedding -/

/-- Program names probed with `which`. -/
def aplayName : String := "aplay"

def paplayName : String := "paplay"

def mplayerName : String := "mplayer"

def afplayName : String := "afplay"

def powershellName : String := "powershell"

/-- External commands the dispatcher can spawn via `subprocess.call`.
`which` is the existence probe; the others are the actual players, carrying
the arguments the Python code builds (for mplayer the 0-100 volume
percentage `int(volume * 100)`, for PowerShell both the speech volume
`int(volume * 100)` and the raw media-player volume). -/
inductive Cmd where
  | which (prog : String)
  | aplay (file : String)
  | paplay (file : String)
  | mplayer (volPercent : ℤ) (file : String)
  | afplay (volume : ℝ) (file : String)
  | powershell (speakVolume : ℤ) (mediaVolume : ℝ) (file : String)

/-- A command that actually plays sound (anything except a `which` probe). -/
def isPlayer : Cmd → Bool
  | Cmd.which _ => false
  | _ => true

/-- The host environment a dispatch call observes: the two environment
variables the code reads, file existence, the outcome of each
`subprocess.call` (`none` models a raised exception such as a missing
binary, `some c` an exit code), and the path `create_default_sound`
returns (`none` models its failure). -/
structure OsEnv where
  silentEnv : Bool
  ciEnv : Bool
  fileExists : String → Bool
  run : Cmd → Option ℤ
  defaultSoundPath : Option String

/-- One `try: which prog; if found: call play` block, as written in
`play_sound_macos` / `play_sound_linux` / `play_sound_windows`: a raised
exception anywhere in the block (modelled by `none`) is caught, a non-zero
`which` skips the player, and the block succeeds exactly when the player
ran and exited 0.  Returns the success flag and the spawned commands. -/
def tryBackend (env : OsEnv) (prog : String) (play : Cmd) : Bool × List Cmd :=
  match env.run (Cmd.which prog) with
  | none => (false, [Cmd.which prog])
  | some c =>
    if c = 0 then
      match env.run play with
      | none => (false, [Cmd.which prog, play])
      | some r => (r = 0, [Cmd.which prog, play])
    else (false, [Cmd.which prog])

/-- The fall-through chaining of the three Linux backend blocks in
`play_sound_linux`: stop at the first success; after exhausting all three
the function returns `True` either way (both the CI branch and the final
log-and-return branch yield `True`). -/
def linuxChain (t1 t2 t3 : Bool × List Cmd) : Bool × List Cmd :=
  if t1.1 then (true, t1.2)
  else if t2.1 then (true, t1.2 ++ t2.2)
  else if t3.1 then (true, t1.2 ++ t2.2 ++ t3.2)
  else (true, t1.2 ++ t2.2 ++ t3.2)

/-- `play_sound_macos` from the module: a single `afplay` backend. -/
def play_sound_macos (env : OsEnv) (sf : String) (vol : ℝ) : Bool × List Cmd :=
  tryBackend env afplayName (Cmd.afplay vol sf)

/-- `play_sound_linux` from the module: silent-mode short circuit, then
aplay, paplay, mplayer in order, each tried at most once; always returns
`True` once the silent check has passed, even when every backend fails. -/
noncomputable def play_sound_linux (env : OsEnv) (sf : String) (vol : ℝ) : Bool × List Cmd :=
  if env.silentEnv then (true, [])
  else
    linuxChain (tryBackend env aplayName (Cmd.aplay sf))
      (tryBackend env paplayName (Cmd.paplay sf))
      (tryBackend env mplayerName (Cmd.mplayer (pyInt (vol * 100)) sf))

/-- `play_sound_windows` from the module: a single PowerShell backend. -/
noncomputable def play_sound_windows (env : OsEnv) (sf : String) (vol : ℝ) : Bool × List Cmd :=
  tryBackend env powershellName (Cmd.powershell (pyInt (vol * 100)) vol sf)

/-- The Linux branch of `CallbackModule._play_sound` from `bell.py`: it
calls `aplay` directly and only a raised exception (not a non-zero exit)
moves on to `paplay`, then likewise to `mplayer`; the outer handler
swallows any exception, so nothing propagates.  Returns the spawned
commands.  The guard mirrors the `not os.path.exists(sound_file)` early
return. -/
noncomputable def callback_play_sound_linux (env : OsEnv) (vol : ℝ) (sf : String) : List Cmd :=
  if env.fileExists sf then
    match env.run (Cmd.aplay sf) with
    | some _ => [Cmd.aplay sf]
    | none =>
      match env.run (Cmd.paplay sf) with
      | some _ => [Cmd.aplay sf, Cmd.paplay sf]
      | none => [Cmd.aplay sf, Cmd.paplay sf, Cmd.mplayer (pyInt (vol * 100)) sf]
  else []

/-- The module parameters of `play_sound` (`sound_file`, `message`,
`volume`); `none` or the empty string for `sound_file` are falsy in
Python's `if not sound_file`. -/
structure ModuleParams where
  sound_file : Option String
  message : String
  volume : ℝ

/-- How `main` terminates: `fail_json` (task failure) or `exit_json`
(success, carrying the message and the sound file used). -/
inductive ModuleResult where
  | failJson (msg : String)
  | exitJson (message : String) (sound_file : String)

/-- `platform.system()` outcomes distinguished by `main`. -/
inductive OsKind where
  | darwin
  | linux
  | windows
  | other

/-- The `fail_json` message of `main` for a missing file. -/
def notFoundMsg (sf : String) : String := "Sound file not found: " ++ sf

/-- The `fail_json` message of `main` when no default sound could be made. -/
def noDefaultMsg : String := "Failed to create default sound file and no custom sound file provided"

/-- `main` from the `play_sound` module: resolve the sound file (falling
back to `create_default_sound`), fail if it does not exist, then check
silent mode, then dispatch by platform; a `False` from the platform player
is downgraded to a warning and `main` still exits successfully.  Returns
the terminal result and the spawned commands. -/
noncomputable def main (p : ModuleParams) (env : OsEnv) (plat : OsKind) : ModuleResult × List Cmd :=
  match (match p.sound_file with
         | none => env.defaultSoundPath
         | some s => if s = "" then env.defaultSoundPath else some s) with
  | none => (ModuleResult.failJson noDefaultMsg, [])
  | some sf =>
    if env.fileExists sf then
      if env.silentEnv then (ModuleResult.exitJson p.message sf, [])
      else
        match plat with
        | OsKind.darwin => (ModuleResult.exitJson p.message sf, (play_sound_macos env sf p.volume).2)
        | OsKind.linux => (ModuleResult.exitJson p.message sf, (play_sound_linux env sf p.volume).2)
        | OsKind.windows => (ModuleResult.exitJson p.message sf, (play_sound_windows env sf p.volume).2)
        | OsKind.other => (ModuleResult.exitJson p.message sf, [])
    else (ModuleResult.failJson (notFoundMsg sf), [])

/-- The backend a dispatch actually used, read off the spawned commands:
the first non-probe command, `none` when no player was spawned. -/
def backendUsedOf (tr : List Cmd) : Option Cmd :=
  tr.find? isPlayer

/- ### Callback statistics embedding -/

/-- The per-host counters `v2_playbook_on_stats` reads from
`stats.summarize(host)`. -/
structure HostStat where
  failures : ℕ
  unreachable : ℕ

/-- Which configured sound the callback dispatches. -/
inductive SoundKind where
  | success
  | failure

/-- One iteration of the host loop in `v2_playbook_on_stats`: the two
sticky flags. -/
def statsStep (acc : Bool × Bool) (h : HostStat) : Bool × Bool :=
  (acc.1 || decide (0 < h.failures), acc.2 || decide (0 < h.unreachable))

/-- The host loop of `v2_playbook_on_stats` over the processed hosts. -/
def statsFlags (l : List HostStat) : Bool × Bool :=
  l.foldl statsStep (false, false)

/-- `v2_playbook_on_stats` from `bell.py`: the failure sound is dispatched
when some host failed or was unreachable, otherwise the success sound;
exactly one of the two is dispatched. -/
def v2_playbook_on_stats (l : List HostStat) : SoundKind :=
  if (statsFlags l).1 || (statsFlags l).2 then SoundKind.failure else SoundKind.success

/- ### Concrete environments and inputs for witnesses and counterexamples -/

/-- A message used in concrete scenarios. -/
def doneMsg : String := "done"

/-- A sound file path used in concrete scenarios. -/
def fWav : String := "f.wav"

/-- A path that exists in no concrete scenario below. -/
def missingWav : String := "missing.wav"

/-- Environment where every probe and every player succeeds, no silent
mode, file present. -/
def envAll : OsEnv :=
  ⟨false, false, fun _ => true, fun _ => some 0, none⟩

/-- Environment where every probe and every player succeeds but silent
mode is on. -/
def envSilent : OsEnv :=
  ⟨true, false, fun _ => true, fun _ => some 0, none⟩

/-- Environment with silent mode on and no file present anywhere. -/
def envNoFile : OsEnv :=
  ⟨true, false, fun _ => false, fun _ => some 0, none⟩

/-- Environment where aplay and paplay are absent (`which` exits 1) and
mplayer is present and succeeds. -/
def envMplayerOnly : OsEnv :=
  ⟨false, false, fun _ => true,
    fun c =>
      match c with
      | Cmd.which p => if p = mplayerName then some 0 else some 1
      | _ => some 0,
    none⟩

/-- Environment where `aplay` runs but exits with code 1 and everything
else would succeed. -/
def envCB : OsEnv :=
  ⟨false, false, fun _ => true,
    fun c =>
      match c with
      | Cmd.aplay _ => some 1
      | _ => some 0,
    none⟩

/-- Module parameters naming an existing file. -/
noncomputable def pW : ModuleParams := ⟨some fWav, doneMsg, 1⟩

/-- Module parameters naming a missing file. -/
noncomputable def pMissing : ModuleParams := ⟨some missingWav, doneMsg, 1⟩

/- ### Helper lemmas: pyInt -/

lemma pyInt_intCast (z : ℤ) : pyInt ((z : ℤ) : ℝ) = z := by
  unfold pyInt
  split
  · exact Int.floor_intCast z
  · exact Int.ceil_intCast z

lemma pyInt_nonpos {x : ℝ} (h : x ≤ 0) : pyInt x ≤ 0 := by
  unfold pyInt
  split
  next hx =>
    have hx0 : x = 0 := le_antisymm h hx
    simp [hx0]
  next hx =>
    exact Int.ceil_le.2 (by exact_mod_cast h)

lemma pyInt_bounds {x : ℝ} (h : |x| ≤ 32767) : -32768 ≤ pyInt x ∧ pyInt x ≤ 32767 := by
  obtain ⟨hl, hr⟩ := abs_le.1 h
  unfold pyInt
  split
  next hx =>
    have h1 : (0 : ℤ) ≤ ⌊x⌋ := Int.floor_nonneg.2 hx
    have h2 : (⌊x⌋ : ℝ) ≤ 32767 := le_trans (Int.floor_le x) hr
    have h3 : ⌊x⌋ ≤ (32767 : ℤ) := by exact_mod_cast h2
    exact ⟨by omega, h3⟩
  next hx =>
    have hx0 : x ≤ 0 := le_of_not_le hx
    have h1 : ⌈x⌉ ≤ (0 : ℤ) := Int.ceil_le.2 (by exact_mod_cast hx0)
    have h2 : (-32767 : ℝ) ≤ (⌈x⌉ : ℝ) := le_trans hl (Int.le_ceil x)
    have h3 : (-32767 : ℤ) ≤ ⌈x⌉ := by exact_mod_cast h2
    exact ⟨by omega, by omega⟩

/- ### Helper lemmas: the synthesis loop -/

lemma sin_sample_bound (θ vol : ℝ) (h0 : 0 ≤ vol) (h1 : vol ≤ 1) :
    |Real.sin θ * 32767 * vol| ≤ 32767 := by
  have hs : |Real.sin θ| ≤ 1 := Real.abs_sin_le_one θ
  have hn : 0 ≤ |Real.sin θ| := abs_nonneg _
  calc |Real.sin θ * 32767 * vol| = |Real.sin θ| * 32767 * vol := by
        rw [abs_mul, abs_mul, abs_of_nonneg h0]
        norm_num
    _ ≤ 32767 := by nlinarith

lemma beepLoop_length (vol rate inc : ℝ) :
    ∀ (k i : ℕ) (f : ℝ), (beepLoop vol rate inc k i f).length = k := by
  intro k
  induction k with
  | zero => intro i f; rfl
  | succ n ih => intro i f; simp [beepLoop, ih]

lemma beepLoop_mem (vol rate inc : ℝ) :
    ∀ (k i : ℕ) (f : ℝ) (x : ℤ), x ∈ beepLoop vol rate inc k i f →
      ∃ θ, x = pyInt (Real.sin θ * 32767 * vol) := by
  intro k
  induction k with
  | zero => intro i f x hx; simp [beepLoop] at hx
  | succ n ih =>
    intro i f x hx
    rw [beepLoop, List.mem_cons] at hx
    rcases hx with hx | hx
    · exact ⟨2 * Real.pi * f * ((i : ℝ) / rate), hx⟩
    · exact ih (i + 1) (f + inc) x hx

lemma beepLoop_get (vol rate inc : ℝ) :
    ∀ (k j i : ℕ) (f : ℝ), j < k →
      (beepLoop vol rate inc k i f).get? j = some (pySample vol rate (f + (j : ℝ) * inc) (i + j)) := by
  intro k
  induction k with
  | zero => intro j i f hj; omega
  | succ n ih =>
    intro j i f hj
    cases j with
    | zero => simp [beepLoop]
    | succ m =>
      have hm : m < n := by omega
      rw [beepLoop]
      have hstep := ih m (i + 1) (f + inc) hm
      have h1 : f + inc + (m : ℝ) * inc = f + ((m + 1 : ℕ) : ℝ) * inc := by
        push_cast
        ring
      have h2 : i + 1 + m = i + (m + 1) := by omega
      rw [h1, h2] at hstep
      simpa using hstep

lemma generate_beep_ok (s : ToneSpec) (h0 : 0 ≤ s.volume) (h1 : s.volume ≤ 1)
    (hn : nSamples s ≠ 0) :
    generate_beep s =
      Except.ok (beepLoop s.volume (s.framerate : ℝ) (freqInc s) (nSamples s).toNat 0 s.start_freq) := by
  unfold generate_beep
  rw [if_neg hn, if_pos]
  intro x hx
  obtain ⟨θ, rfl⟩ := beepLoop_mem _ _ _ _ _ _ x hx
  exact pyInt_bounds (sin_sample_bound θ s.volume h0 h1)

lemma beepLoop_zero_vol (rate inc : ℝ) :
    ∀ (k i : ℕ) (f : ℝ), beepLoop 0 rate inc k i f = List.replicate k 0 := by
  intro k
  induction k with
  | zero => intro i f; rfl
  | succ n ih =>
    intro i f
    rw [beepLoop, ih, List.replicate_succ]
    have : pySample 0 rate f i = 0 := by
      unfold pySample
      rw [mul_zero]
      simpa using pyInt_intCast 0
    rw [this]

/- ### Helper lemmas: dispatcher traces -/

lemma tryBackend_trace_sublist (env : OsEnv) (prog : String) (play : Cmd) :
    ((tryBackend env prog play).2).Sublist [Cmd.which prog, play] := by
  unfold tryBackend
  cases h : env.run (Cmd.which prog) with
  | none => simp
  | some c =>
    by_cases hc : c = 0
    · cases h2 : env.run play <;> simp [hc, h2]
    · simp [hc]

lemma linuxChain_fst (t1 t2 t3 : Bool × List Cmd) : (linuxChain t1 t2 t3).1 = true := by
  unfold linuxChain
  split
  · rfl
  · split
    · rfl
    · split <;> rfl

lemma linuxChain_trace_sublist {t1 t2 t3 : Bool × List Cmd} {l1 l2 l3 : List Cmd}
    (h1 : t1.2.Sublist l1) (h2 : t2.2.Sublist l2) (h3 : t3.2.Sublist l3) :
    ((linuxChain t1 t2 t3).2).Sublist ((l1 ++ l2) ++ l3) := by
  unfold linuxChain
  split
  · exact h1.trans ((List.sublist_append_left l1 l2).trans (List.sublist_append_left (l1 ++ l2) l3))
  · split
    · exact (h1.append h2).trans (List.sublist_append_left (l1 ++ l2) l3)
    · split
      · exact (h1.append h2).append h3
      · exact (h1.append h2).append h3

lemma play_sound_linux_fst (env : OsEnv) (sf : String) (vol : ℝ) :
    (play_sound_linux env sf vol).1 = true := by
  unfold play_sound_linux
  split
  · rfl
  · exact linuxChain_fst _ _ _

lemma play_sound_linux_trace (env : OsEnv) (sf : String) (vol : ℝ) :
    ((play_sound_linux env sf vol).2).Sublist
      [Cmd.which aplayName, Cmd.aplay sf, Cmd.which paplayName, Cmd.paplay sf,
       Cmd.which mplayerName, Cmd.mplayer (pyInt (vol * 100)) sf] := by
  unfold play_sound_linux
  split
  · simp
  · exact linuxChain_trace_sublist (tryBackend_trace_sublist env aplayName (Cmd.aplay sf))
      (tryBackend_trace_sublist env paplayName (Cmd.paplay sf))
      (tryBackend_trace_sublist env mplayerName (Cmd.mplayer (pyInt (vol * 100)) sf))

/- ### Helper lemmas: callback stats loop -/

lemma statsFlags_foldl : ∀ (l : List HostStat) (a b : Bool),
    l.foldl statsStep (a, b) =
      ((a || l.any fun h => decide (0 < h.failures)),
       (b || l.any fun h => decide (0 < h.unreachable))) := by
  intro l
  induction l with
  | nil => intro a b; simp
  | cons h t ih =>
    intro a b
    rw [List.foldl_cons]
    show t.foldl statsStep (statsStep (a, b) h) = _
    rw [statsStep, ih]
    simp [Bool.or_assoc]

/- ### Helper lemmas: numeric evaluations of the concrete specs -/

lemma nSamples_spec1 : nSamples spec1 = 12 := by
  have h : spec1.duration * (spec1.framerate : ℝ) = ((12 : ℤ) : ℝ) := by
    show (1 : ℝ) * ((12 : ℤ) : ℝ) = ((12 : ℤ) : ℝ)
    norm_num
  unfold nSamples
  rw [h]
  exact pyInt_intCast 12

lemma freqInc_spec1 : freqInc spec1 = 0 := by
  unfold freqInc
  show ((1 : ℝ) - 1) / _ = 0
  simp

lemma nSamples_spec06 : nSamples spec06 = 13230 := by
  have h : spec06.duration * (spec06.framerate : ℝ) = ((13230 : ℤ) : ℝ) := by
    show (0.3 : ℝ) * ((44100 : ℤ) : ℝ) = ((13230 : ℤ) : ℝ)
    norm_num
  unfold nSamples
  rw [h]
  exact pyInt_intCast 13230

lemma nSamples_specC2 : nSamples specC2 = -13230 := by
  have h : specC2.duration * (specC2.framerate : ℝ) = ((-13230 : ℤ) : ℝ) := by
    show (-0.3 : ℝ) * ((44100 : ℤ) : ℝ) = ((-13230 : ℤ) : ℝ)
    norm_num
  unfold nSamples
  rw [h]
  exact pyInt_intCast (-13230)

lemma nSamples_specC2v : nSamples specC2v = 0 := by
  have h : specC2v.duration * (specC2v.framerate : ℝ) = 0.0441 := by
    show (0.000001 : ℝ) * ((44100 : ℤ) : ℝ) = 0.0441
    norm_num
  unfold nSamples pyInt
  rw [h, if_pos (by norm_num)]
  rw [Int.floor_eq_iff]
  norm_num

lemma nSamples_specC6 : nSamples specC6 = 1 := by
  have h : specC6.duration * (specC6.framerate : ℝ) = 1.5 := by
    show (0.5 : ℝ) * ((3 : ℤ) : ℝ) = 1.5
    norm_num
  unfold nSamples pyInt
  rw [h, if_pos (by norm_num)]
  rw [Int.floor_eq_iff]
  norm_num

lemma nSamples_specW9 : nSamples specW9 = 10 := by
  have h : specW9.duration * (specW9.framerate : ℝ) = ((10 : ℤ) : ℝ) := by
    show (1 : ℝ) * ((10 : ℤ) : ℝ) = ((10 : ℤ) : ℝ)
    norm_num
  unfold nSamples
  rw [h]
  exact pyInt_intCast 10

lemma specSampleCount_specC6 : specSampleCount specC6 = 2 := by
  unfold specSampleCount
  rw [round_eq]
  have h : specC6.duration * (specC6.framerate : ℝ) + 1 / 2 = 2 := by
    show (0.5 : ℝ) * ((3 : ℤ) : ℝ) + 1 / 2 = 2
    norm_num
  rw [h]
  norm_num

/- ### C2 -/

/-- C2 counterexample: `generate_beep` with duration −0.3 (and otherwise
valid fields) does not fail at all — `int(-0.3 * 44100) = -13230`, the
loop body never runs, and an empty clip is produced — refuting the claim
that a duration ≤ 0 fails with `InvalidSpecError`. -/
theorem nonpositive_duration_no_error :
    specC2.duration ≤ 0 ∧ generate_beep specC2 = Except.ok [] := by
  constructor
  · show (-0.3 : ℝ) ≤ 0
    norm_num
  · unfold generate_beep
    rw [nSamples_specC2]
    rw [if_neg (by norm_num)]
    rw [show ((-13230 : ℤ)).toNat = 0 from rfl]
    rw [show beepLoop specC2.volume (specC2.framerate : ℝ) (freqInc specC2) 0 0 specC2.start_freq
          = [] from rfl]
    rw [if_pos (by simp)]

/-- C2 (amended): `generate_beep` performs no parameter validation and
there is no `InvalidSpecError`.  Whenever `int(duration * framerate) = 0`
(including duration = 0, and valid specs shorter than one sample period)
the increment division raises `ZeroDivisionError`; for duration ≤ 0 with a
positive sample rate it either raises `ZeroDivisionError` or returns an
empty clip without any error. -/
theorem no_validation_on_nonpositive_duration :
    (∀ s : ToneSpec, nSamples s = 0 →
      generate_beep s = Except.error PyError.zeroDivisionError) ∧
    (∀ s : ToneSpec, s.duration ≤ 0 → 0 < s.framerate →
      generate_beep s = Except.error PyError.zeroDivisionError ∨ generate_beep s = Except.ok []) := by
  constructor
  · intro s hs
    unfold generate_beep
    rw [if_pos hs]
  · intro s hd hr
    by_cases h0 : nSamples s = 0
    · left
      unfold generate_beep
      rw [if_pos h0]
    · right
      have hrr : (0 : ℝ) ≤ (s.framerate : ℝ) := by exact_mod_cast le_of_lt hr
      have hn : nSamples s ≤ 0 := by
        unfold nSamples
        exact pyInt_nonpos (by nlinarith)
      unfold generate_beep
      rw [if_neg h0]
      rw [Int.toNat_of_nonpos hn]
      rw [show beepLoop s.volume (s.framerate : ℝ) (freqInc s) 0 0 s.start_freq = [] from rfl]
      rw [if_pos (by simp)]

/-- C2 witness: duration 0.000001 (a valid spec) raises `ZeroDivisionError`,
and duration −0.3 hits the no-error branch. -/
theorem no_validation_witness :
    generate_beep specC2v = Except.error PyError.zeroDivisionError ∧
    (generate_beep specC2 = Except.error PyError.zeroDivisionError ∨
      generate_beep specC2 = Except.ok []) :=
  ⟨no_validation_on_nonpositive_duration.1 specC2v nSamples_specC2v,
   no_validation_on_nonpositive_duration.2 specC2
     (by show (-0.3 : ℝ) ≤ 0; norm_num)
     (by show (0 : ℤ) < 44100; norm_num)⟩

/- ### C6 -/

/-- C6 (amended): the number of synthesized samples is
`int(duration_seconds × sample_rate_hz)` — truncation toward zero, not
rounding — whenever synthesis completes. -/
theorem sample_count_truncates (s : ToneSpec) (h0 : 0 ≤ s.volume) (h1 : s.volume ≤ 1)
    (hn : nSamples s ≠ 0) :
    clipLength s = some (nSamples s).toNat := by
  unfold clipLength
  rw [generate_beep_ok s h0 h1 hn]
  simp [Except.toOption, beepLoop_length]

/-- C6 witness: the worked example duration 0.3 s at 44100 Hz yields
exactly 13230 samples (0.3 × 44100 = 13230 exactly, so truncation and
rounding agree there). -/
theorem sample_count_truncates_witness : clipLength spec06 = some 13230 := by
  have h := sample_count_truncates spec06
    (by show (0 : ℝ) ≤ 0.8; norm_num)
    (by show (0.8 : ℝ) ≤ 1; norm_num)
    (by rw [nSamples_spec06]; norm_num)
  rw [nSamples_spec06] at h
  simpa using h

/-- C6 counterexample: the valid spec with duration 0.5 s at 3 Hz has
`duration × rate = 1.5`; the code produces `int(1.5) = 1` sample, while
the claim's `round(1.5) = 2`. -/
theorem sample_count_round_claim_fails :
    specValid specC6 ∧ clipLength specC6 = some 1 ∧ specSampleCount specC6 = 2 ∧
      clipLength specC6 ≠ some (specSampleCount specC6).toNat := by
  have hv : specValid specC6 := by
    unfold specValid
    simp only [specC6]
    norm_num
  have hok := generate_beep_ok specC6
    (by show (0 : ℝ) ≤ 0; norm_num)
    (by show (0 : ℝ) ≤ 1; norm_num)
    (by rw [nSamples_specC6]; norm_num)
  have hlen : clipLength specC6 = some 1 := by
    unfold clipLength
    rw [hok]
    simp [Except.toOption, beepLoop_length, nSamples_specC6]
  refine ⟨hv, hlen, specSampleCount_specC6, ?_⟩
  rw [hlen, specSampleCount_specC6]
  simp

/- ### C7 -/

/-- C7: `generate_beep` is deterministic — identical ToneSpec inputs give
byte-identical serialized PCM payloads (the embedding is a pure function
of the spec: the code reads no clock, randomness or other state). -/
theorem synthesize_deterministic (s1 s2 : ToneSpec) (h : s1 = s2) :
    Except.map serializeClip (generate_beep s1) = Except.map serializeClip (generate_beep s2) := by
  rw [h]

/-- C7 witness at the worked example spec. -/
theorem synthesize_deterministic_witness :
    Except.map serializeClip (generate_beep spec06) =
      Except.map serializeClip (generate_beep spec06) :=
  synthesize_deterministic spec06 spec06 rfl

/- ### C9 -/

/-- C9: with volume 0 every synthesized sample is 0 (the clip is a run of
zeros of the expected length). -/
theorem zero_volume_silent_clip (s : ToneSpec) (hv : s.volume = 0) (hn : nSamples s ≠ 0) :
    generate_beep s = Except.ok (List.replicate (nSamples s).toNat 0) ∧
      ∀ x ∈ List.replicate (nSamples s).toNat (0 : ℤ), x = 0 := by
  constructor
  · rw [generate_beep_ok s (by simp [hv]) (by simp [hv]) hn, hv, beepLoop_zero_vol]
  · intro x hx
    exact List.eq_of_mem_replicate hx

/-- C9 witness: the zero-volume spec with 10 samples yields ten zeros. -/
theorem zero_volume_silent_clip_witness :
    generate_beep specW9 = Except.ok (List.replicate 10 0) ∧
      ∀ x ∈ List.replicate 10 (0 : ℤ), x = 0 := by
  have h := zero_volume_silent_clip specW9
    (by show (0 : ℝ) = 0; rfl)
    (by rw [nSamples_specW9]; norm_num)
  rw [nSamples_specW9] at h
  simpa using h

/- ### C1 -/

/-- C1 (amended): the synthesized sample at index `i` equals the Python
`int(...)` truncation toward zero of
`sin(2π × f_i × i / sample_rate_hz) × 32767 × volume`, with `f_i`
linearly interpolated as `start + i × (end − start) / n_samples`; no
clamping is performed (for volume in [0,1] every value already lies in
the 16-bit range). -/
theorem sample_formula_truncates (s : ToneSpec) (i : ℕ) (h0 : 0 ≤ s.volume)
    (h1 : s.volume ≤ 1) (hn : nSamples s ≠ 0) (hi : i < (nSamples s).toNat) :
    clipSampleAt s i =
      some (pyInt (Real.sin (2 * Real.pi * codeFreqAt s i * ((i : ℝ) / (s.framerate : ℝ)))
        * 32767 * s.volume)) := by
  unfold clipSampleAt
  rw [generate_beep_ok s h0 h1 hn]
  show (beepLoop s.volume (s.framerate : ℝ) (freqInc s) (nSamples s).toNat 0 s.start_freq).get? i
    = _
  rw [beepLoop_get s.volume (s.framerate : ℝ) (freqInc s) (nSamples s).toNat i 0 s.start_freq hi]
  simp [pySample, codeFreqAt]

/-- C1 witness: the truncation formula evaluated at `spec1`, index 1. -/
theorem sample_formula_truncates_witness :
    clipSampleAt spec1 1 =
      some (pyInt (Real.sin (2 * Real.pi * codeFreqAt spec1 1 * (((1 : ℕ) : ℝ) / (spec1.framerate : ℝ)))
        * 32767 * spec1.volume)) := by
  have h := sample_formula_truncates spec1 1
    (by show (0 : ℝ) ≤ 1; norm_num)
    (by show (1 : ℝ) ≤ 1; norm_num)
    (by rw [nSamples_spec1]; norm_num)
    (by rw [nSamples_spec1]; decide)
  simpa using h

/-- C1 counterexample: at `spec1` (a valid constant 1 Hz tone sampled at
12 Hz, volume 1) the sample at index 1 is `int(sin(π/6) × 32767) =
int(16383.5) = 16383`, while the claim's rounded-and-clamped value is
`round(16383.5) = 16384`. -/
theorem sample_round_claim_fails :
    specValid spec1 ∧ clipSampleAt spec1 1 = some 16383 ∧ specSample spec1 1 = 16384 ∧
      clipSampleAt spec1 1 ≠ some (specSample spec1 1) := by
  have hv : specValid spec1 := by
    unfold specValid
    simp only [spec1]
    norm_num
  have hok := generate_beep_ok spec1
    (by show (0 : ℝ) ≤ 1; norm_num)
    (by show (1 : ℝ) ≤ 1; norm_num)
    (by rw [nSamples_spec1]; norm_num)
  have hget := beepLoop_get spec1.volume (spec1.framerate : ℝ) (freqInc spec1)
    (nSamples spec1).toNat 1 0 spec1.start_freq (by rw [nSamples_spec1]; decide)
  have hval : pySample spec1.volume (spec1.framerate : ℝ)
      (spec1.start_freq + ((1 : ℕ) : ℝ) * freqInc spec1) (0 + 1) = 16383 := by
    unfold pySample
    rw [freqInc_spec1]
    have hang : 2 * Real.pi * (spec1.start_freq + ((1 : ℕ) : ℝ) * 0)
        * (((0 + 1 : ℕ) : ℝ) / (spec1.framerate : ℝ)) = Real.pi / 6 := by
      show 2 * Real.pi * ((1 : ℝ) + ((1 : ℕ) : ℝ) * 0) * (((0 + 1 : ℕ) : ℝ) / ((12 : ℤ) : ℝ))
        = Real.pi / 6
      push_cast
      ring
    rw [hang, Real.sin_pi_div_six]
    have hx : (1 : ℝ) / 2 * 32767 * spec1.volume = 16383.5 := by
      show (1 : ℝ) / 2 * 32767 * 1 = 16383.5
      norm_num
    rw [hx]
    unfold pyInt
    rw [if_pos (by norm_num)]
    rw [Int.floor_eq_iff]
    norm_num
  have hsamp : clipSampleAt spec1 1 = some 16383 := by
    unfold clipSampleAt
    rw [hok]
    show (beepLoop spec1.volume (spec1.framerate : ℝ) (freqInc spec1)
      (nSamples spec1).toNat 0 spec1.start_freq).get? 1 = _
    rw [hget, hval]
  have hspec : specSample spec1 1 = 16384 := by
    unfold specSample
    have hf : specFreqAt spec1 1 = 1 := by
      unfold specFreqAt
      show (1 : ℝ) + ((1 : ℕ) : ℝ) * (((1 : ℝ) - 1) / _) = 1
      simp
    rw [hf]
    have hang : 2 * Real.pi * (1 : ℝ) * (((1 : ℕ) : ℝ) / (spec1.framerate : ℝ)) = Real.pi / 6 := by
      show 2 * Real.pi * (1 : ℝ) * (((1 : ℕ) : ℝ) / ((12 : ℤ) : ℝ)) = Real.pi / 6
      push_cast
      ring
    rw [hang, Real.sin_pi_div_six]
    have hx : (1 : ℝ) / 2 * 32767 * spec1.volume = 16383.5 := by
      show (1 : ℝ) / 2 * 32767 * 1 = 16383.5
      norm_num
    rw [hx, round_eq]
    have hy : (16383.5 : ℝ) + 1 / 2 = ((16384 : ℤ) : ℝ) := by norm_num
    rw [hy, Int.floor_intCast]
    norm_num
  refine ⟨hv, hsamp, hspec, ?_⟩
  rw [hsamp, hspec]
  simp

/- ### C8 -/

/-- C8 (amended): on Linux the module tries the backends in the fixed
priority order aplay, then paplay, then mplayer — every spawned command
sequence is a subsequence of probe/play pairs in that order, each backend
at most once — and the mplayer volume argument is the truncation
`int(volume × 100)`, not `round(volume × 100)`. -/
theorem linux_backend_order (env : OsEnv) (sf : String) (vol : ℝ) :
    ((play_sound_linux env sf vol).2).Sublist
      [Cmd.which aplayName, Cmd.aplay sf, Cmd.which paplayName, Cmd.paplay sf,
       Cmd.which mplayerName, Cmd.mplayer (pyInt (vol * 100)) sf] :=
  play_sound_linux_trace env sf vol

/-- C8 counterexample: with only mplayer installed and volume 0.999 the
module invokes mplayer with volume argument `int(99.9) = 99`, while the
claim's `round(0.999 × 100) = 100`. -/
theorem mplayer_volume_round_claim_fails :
    (play_sound_linux envMplayerOnly fWav 0.999).2 =
      [Cmd.which aplayName, Cmd.which paplayName, Cmd.which mplayerName,
       Cmd.mplayer (pyInt ((0.999 : ℝ) * 100)) fWav] ∧
    pyInt ((0.999 : ℝ) * 100) = 99 ∧ round ((0.999 : ℝ) * 100) = 100 := by
  refine ⟨rfl, ?_, ?_⟩
  · have hx : (0.999 : ℝ) * 100 = 99.9 := by norm_num
    unfold pyInt
    rw [hx]
    rw [if_pos (show (0 : ℝ) ≤ 99.9 by norm_num)]
    rw [Int.floor_eq_iff]
    norm_num
  · have hx : (0.999 : ℝ) * 100 = 99.9 := by norm_num
    rw [hx, round_eq]
    have hy : (99.9 : ℝ) + 1 / 2 = 100.4 := by norm_num
    rw [hy]
    rw [Int.floor_eq_iff]
    norm_num

/- ### C3 -/

/-- C3 (amended): in the module path, a failed Linux backend invocation
(exception, non-zero exit, or missing binary) advances to the next
candidate, each backend is spawned at most once (the player commands form
a subsequence of [aplay, paplay, mplayer]), and after the existence check
the module always reports success — `play_sound_linux` returns `True`
even when every backend fails, and `main` exits successfully on every
platform for an existing file.  In the callback path the player commands
likewise form a subsequence of [aplay, paplay, mplayer] with each backend
tried at most once, but only a raised process error advances the chain
(see the counterexample: a non-zero exit stops it). -/
theorem dispatch_fallback_behavior :
    (∀ (env : OsEnv) (sf : String) (vol : ℝ), (play_sound_linux env sf vol).1 = true) ∧
    (∀ (env : OsEnv) (sf : String) (vol : ℝ),
      (List.filter isPlayer (play_sound_linux env sf vol).2).Sublist
        [Cmd.aplay sf, Cmd.paplay sf, Cmd.mplayer (pyInt (vol * 100)) sf]) ∧
    (∀ (env : OsEnv) (vol : ℝ) (sf : String),
      (callback_play_sound_linux env vol sf).Sublist
        [Cmd.aplay sf, Cmd.paplay sf, Cmd.mplayer (pyInt (vol * 100)) sf]) ∧
    (∀ (p : ModuleParams) (env : OsEnv) (plat : OsKind) (sf : String),
      p.sound_file = some sf → sf ≠ "" → env.fileExists sf = true →
      (main p env plat).1 = ModuleResult.exitJson p.message sf) := by
  refine ⟨fun env sf vol => play_sound_linux_fst env sf vol, ?_, ?_, ?_⟩
  · intro env sf vol
    have h := (play_sound_linux_trace env sf vol).filter isPlayer
    rw [show List.filter isPlayer
        [Cmd.which aplayName, Cmd.aplay sf, Cmd.which paplayName, Cmd.paplay sf,
         Cmd.which mplayerName, Cmd.mplayer (pyInt (vol * 100)) sf]
      = [Cmd.aplay sf, Cmd.paplay sf, Cmd.mplayer (pyInt (vol * 100)) sf] from rfl] at h
    exact h
  · intro env vol sf
    unfold callback_play_sound_linux
    split
    · cases h1 : env.run (Cmd.aplay sf) with
      | some c => simp
      | none =>
        cases h2 : env.run (Cmd.paplay sf) with
        | some c => simp
        | none => simp
    · simp
  · intro p env plat sf hp hne hex
    cases hsil : env.silentEnv <;> cases plat <;> simp [main, hp, hne, hex, hsil]

/-- C3 witness: with every backend available on Linux the module exits
successfully for an existing file. -/
theorem dispatch_fallback_behavior_witness :
    (main pW envAll OsKind.linux).1 = ModuleResult.exitJson pW.message fWav :=
  dispatch_fallback_behavior.2.2.2 pW envAll OsKind.linux fWav rfl (by decide) rfl

/-- C3 counterexample: in the callback path, when `aplay` runs but exits
with code 1 (a non-zero exit, which the claim counts as a failed backend
invocation), no further candidate is tried: the spawned commands are
exactly `[aplay]` and `paplay` is never invoked. -/
theorem callback_nonzero_exit_stops_fallback :
    envCB.run (Cmd.aplay fWav) = some 1 ∧
    callback_play_sound_linux envCB 1 fWav = [Cmd.aplay fWav] ∧
    Cmd.paplay fWav ∉ callback_play_sound_linux envCB 1 fWav := by
  have h2 : callback_play_sound_linux envCB 1 fWav = [Cmd.aplay fWav] := rfl
  refine ⟨rfl, h2, ?_⟩
  rw [h2]
  simp

/- ### C4 -/

/-- C4: when the requested sound file does not exist, `main` fails with
the `Sound file not found` error, before the silent-mode check and
regardless of the silent flag, and spawns nothing. -/
theorem missing_file_fails (p : ModuleParams) (env : OsEnv) (plat : OsKind) (sf : String)
    (hp : p.sound_file = some sf) (hne : sf ≠ "") (hex : env.fileExists sf = false) :
    main p env plat = (ModuleResult.failJson (notFoundMsg sf), []) := by
  simp [main, hp, hne, hex]

/-- C4 witness: a missing file fails even with silent mode enabled. -/
theorem missing_file_fails_witness :
    envNoFile.silentEnv = true ∧
      main pMissing envNoFile OsKind.linux = (ModuleResult.failJson (notFoundMsg missingWav), []) :=
  ⟨rfl, missing_file_fails pMissing envNoFile OsKind.linux missingWav rfl (by decide) rfl⟩

/- ### C5 -/

/-- C5: with silent mode set and an existing, explicitly given file,
`main` spawns no external command (the trace is empty, hence no backend
was used) and exits successfully. -/
theorem silent_mode_no_process (p : ModuleParams) (env : OsEnv) (plat : OsKind) (sf : String)
    (hp : p.sound_file = some sf) (hne : sf ≠ "") (hex : env.fileExists sf = true)
    (hsil : env.silentEnv = true) :
    main p env plat = (ModuleResult.exitJson p.message sf, []) ∧
      backendUsedOf (main p env plat).2 = none := by
  have h : main p env plat = (ModuleResult.exitJson p.message sf, []) := by
    simp [main, hp, hne, hex, hsil]
  refine ⟨h, ?_⟩
  rw [h]
  rfl

/-- C5 witness at a concrete silent environment. -/
theorem silent_mode_no_process_witness :
    main pW envSilent OsKind.linux = (ModuleResult.exitJson pW.message fWav, []) ∧
      backendUsedOf (main pW envSilent OsKind.linux).2 = none :=
  silent_mode_no_process pW envSilent OsKind.linux fWav rfl (by decide) rfl rfl

/- ### C10 -/

/-- C10: the callback dispatches the failure sound exactly when some
processed host has failures > 0 or unreachable > 0, and otherwise the
success sound — exactly one of the two per playbook completion. -/
theorem stats_sound_selection (l : List HostStat) :
    (v2_playbook_on_stats l = SoundKind.failure ↔
      ∃ h ∈ l, 0 < h.failures ∨ 0 < h.unreachable) ∧
    (v2_playbook_on_stats l = SoundKind.success ↔
      ¬ ∃ h ∈ l, 0 < h.failures ∨ 0 < h.unreachable) := by
  have hflag : ((statsFlags l).1 || (statsFlags l).2) = true ↔
      ∃ h ∈ l, 0 < h.failures ∨ 0 < h.unreachable := by
    unfold statsFlags
    rw [statsFlags_foldl]
    simp only [Bool.false_or, Bool.or_eq_true, List.any_eq_true, decide_eq_true_eq]
    constructor
    · rintro (⟨h, hm, hf⟩ | ⟨h, hm, hu⟩)
      · exact ⟨h, hm, Or.inl hf⟩
      · exact ⟨h, hm, Or.inr hu⟩
    · rintro ⟨h, hm, hf | hu⟩
      · exact Or.inl ⟨h, hm, hf⟩
      · exact Or.inr ⟨h, hm, hu⟩
  unfold v2_playbook_on_stats
  by_cases hc : ((statsFlags l).1 || (statsFlags l).2) = true
  · rw [if_pos hc]
    have hex := hflag.mp hc
    refine ⟨⟨fun _ => hex, fun _ => rfl⟩, ?_⟩
    constructor
    · intro hEq
      exact SoundKind.noConfusion hEq
    · intro hn
      exact absurd hex hn
  · rw [if_neg hc]
    have hnot : ¬ ∃ h ∈ l, 0 < h.failures ∨ 0 < h.unreachable := fun he => hc (hflag.mpr he)
    refine ⟨?_, ⟨fun _ => hnot, fun _ => rfl⟩⟩
    constructor
    · intro hEq
      exact SoundKind.noConfusion hEq
    · intro he
      exact absurd he hnot

end AnsibleBell
